import Mathlib

/-!
Verification of the GeoJSON worker source of this repository
(`src/js/source/geojson_worker_source.js` and the aggregate-function module
`src/unnamed/part_000`), shallowly embedded in Lean 4.

JavaScript numbers are modelled exactly (rationals extended with the three
special values `NaN`, `Infinity`, `-Infinity`); arithmetic on finite values is
exact rather than IEEE-rounded.  JavaScript values that can appear as feature
properties are modelled by `JSVal`.  External collaborators (supercluster,
geojson-vt, ajax, JSON.parse, geojson-rewind, vt-pbf) are not part of the
repository; they enter the model only through their interface: as opaque
parameters, or, for the clustering collaborator, as a merge schedule listing
the node pairs on which it invokes the supplied accumulator.
-/

/-- A JavaScript number: a finite value (modelled exactly as a rational),
`Infinity`, `-Infinity`, or `NaN`. -/
inductive JSNum where
  | nan : JSNum
  | inf : JSNum
  | negInf : JSNum
  | num : ℚ → JSNum
deriving DecidableEq

/-- JavaScript `+` on numbers: `NaN` is absorbing, `Infinity + -Infinity` is
`NaN`, an infinity plus a finite value keeps its sign. -/
def jsAdd : JSNum → JSNum → JSNum
  | .nan, _ => .nan
  | _, .nan => .nan
  | .inf, .negInf => .nan
  | .negInf, .inf => .nan
  | .inf, _ => .inf
  | _, .inf => .inf
  | .negInf, _ => .negInf
  | _, .negInf => .negInf
  | .num a, .num b => .num (a + b)

/-- JavaScript `Math.min` on two numbers: `NaN` is absorbing, otherwise the
minimum in the order `-Infinity < finite < Infinity`. -/
def jsMin : JSNum → JSNum → JSNum
  | .nan, _ => .nan
  | _, .nan => .nan
  | .negInf, _ => .negInf
  | _, .negInf => .negInf
  | .inf, b => b
  | a, .inf => a
  | .num a, .num b => .num (min a b)

/-- JavaScript `Math.max` on two numbers: `NaN` is absorbing, otherwise the
maximum in the order `-Infinity < finite < Infinity`. -/
def jsMax : JSNum → JSNum → JSNum
  | .nan, _ => .nan
  | _, .nan => .nan
  | .inf, _ => .inf
  | _, .inf => .inf
  | .negInf, b => b
  | a, .negInf => a
  | .num a, .num b => .num (max a b)

/-- JavaScript `<` on two numbers (`NaN` compares false to everything). -/
def jsNumLt : JSNum → JSNum → Bool
  | .nan, _ => false
  | _, .nan => false
  | .inf, _ => false
  | _, .inf => true
  | .negInf, .negInf => false
  | .negInf, _ => true
  | _, .negInf => false
  | .num a, .num b => decide (a < b)

/-- Digit string to natural number (callers guarantee all characters are
decimal digits). -/
def natOfDigits (cs : List Char) : ℕ :=
  cs.foldl (fun acc c => 10 * acc + (c.toNat - 48)) 0

/-- Parse an unsigned decimal literal (`"12"`, `"12.5"`, `".5"`, `"5."`),
returning `none` when the characters are not such a literal. -/
def jsUnsignedDecimal (cs : List Char) : Option ℚ :=
  let intPart := cs.takeWhile (· ≠ '.')
  match cs.dropWhile (· ≠ '.') with
  | [] =>
    if !intPart.isEmpty && intPart.all Char.isDigit then
      some ((natOfDigits intPart : ℚ))
    else none
  | _ :: frac =>
    if (!intPart.isEmpty || !frac.isEmpty) && intPart.all Char.isDigit
        && frac.all Char.isDigit then
      some ((natOfDigits intPart : ℚ) + (natOfDigits frac : ℚ) / (10 : ℚ) ^ frac.length)
    else none

/-- Strip leading and trailing whitespace from a character list (the
`String.trim` step of JavaScript string-to-number coercion). -/
def trimChars (cs : List Char) : List Char :=
  ((cs.dropWhile Char.isWhitespace).reverse.dropWhile Char.isWhitespace).reverse

/-- JavaScript string-to-number coercion (`Number(string)`), modelled on the
fragment relevant here: trimmed empty string is `0`, optionally signed decimal
literals and `Infinity` parse to their value, every other string is `NaN`
(hexadecimal and exponent literals are outside the modelled fragment). -/
def jsStringToNumber (s : String) : JSNum :=
  match trimChars s.toList with
  | [] => .num 0
  | cs =>
    let signed : Bool × List Char :=
      match cs with
      | '-' :: rest => (true, rest)
      | '+' :: rest => (false, rest)
      | _ => (false, cs)
    if signed.2 = "Infinity".toList then
      if signed.1 then .negInf else .inf
    else
      match jsUnsignedDecimal signed.2 with
      | some q => .num (if signed.1 then -q else q)
      | none => .nan

/-- A JavaScript value as it can appear as a feature property. -/
inductive JSVal where
  | num : JSNum → JSVal
  | str : String → JSVal
  | boolean : Bool → JSVal
  | nullV : JSVal
  | undefined : JSVal
deriving DecidableEq

/-- JavaScript `Number(x)` coercion. -/
def jsToNumber : JSVal → JSNum
  | .num n => n
  | .str s => jsStringToNumber s
  | .boolean b => .num (if b then 1 else 0)
  | .nullV => .num 0
  | .undefined => .nan

/-- Truthiness of a JavaScript number (`0` and `NaN` are falsy). -/
def jsTruthyNum : JSNum → Bool
  | .nan => false
  | .num q => decide (q ≠ 0)
  | _ => true

/-- Truthiness of a JavaScript value. -/
def jsTruthyVal : JSVal → Bool
  | .num n => jsTruthyNum n
  | .str s => decide (s ≠ "")
  | .boolean b => b
  | .nullV => false
  | .undefined => false

/-- JavaScript `a || d` applied to a number `a`. -/
def jsOr (a d : JSNum) : JSNum :=
  if jsTruthyNum a then a else d

/-- JavaScript `a < b` on property values: two strings compare
lexicographically, otherwise both sides are coerced to numbers. -/
def jsLtVal (a b : JSVal) : Bool :=
  match a, b with
  | .str s, .str t => decide (s < t)
  | _, _ => jsNumLt (jsToNumber a) (jsToNumber b)

/-! ### Aggregate function registry of `geojson_worker_source.js`
(`_superclusterAggregateFunctions`) -/

/-- `sum: function (a, b) { return (Number(a) || 0) + (Number(b) || 0); }` -/
def superclusterAggregateFunctions.sum (a b : JSVal) : JSVal :=
  .num (jsAdd (jsOr (jsToNumber a) (.num 0)) (jsOr (jsToNumber b) (.num 0)))

/-- `min: function (a, b) { return Math.min(Number(a) || Infinity, Number(b) || Infinity); }` -/
def superclusterAggregateFunctions.min (a b : JSVal) : JSVal :=
  .num (jsMin (jsOr (jsToNumber a) .inf) (jsOr (jsToNumber b) .inf))

/-- `max: function (a, b) { return Math.max(Number(a) || -Infinity, Number(b) || -Infinity); }` -/
def superclusterAggregateFunctions.max (a b : JSVal) : JSVal :=
  .num (jsMax (jsOr (jsToNumber a) .negInf) (jsOr (jsToNumber b) .negInf))

/-- `min_string: function (a, b) { return a < b ? a : b; }` -/
def superclusterAggregateFunctions.minString (a b : JSVal) : JSVal :=
  if jsLtVal a b then a else b

/-- `max_string: function (a, b) { return a > b ? a : b; }` -/
def superclusterAggregateFunctions.maxString (a b : JSVal) : JSVal :=
  if jsLtVal b a then a else b

/-- `and: function (a, b) { return a && b; }` -/
def superclusterAggregateFunctions.andFn (a b : JSVal) : JSVal :=
  if jsTruthyVal a then b else a

/-- `or: function (a, b) { return a || b; }` -/
def superclusterAggregateFunctions.orFn (a b : JSVal) : JSVal :=
  if jsTruthyVal a then a else b

/-- The registry object `_superclusterAggregateFunctions` as a property lookup:
an unknown operation name yields `none` (JavaScript `undefined`). -/
def superclusterAggregateFunctions : String → Option (JSVal → JSVal → JSVal)
  | "sum" => some superclusterAggregateFunctions.sum
  | "min" => some superclusterAggregateFunctions.min
  | "max" => some superclusterAggregateFunctions.max
  | "min_string" => some superclusterAggregateFunctions.minString
  | "max_string" => some superclusterAggregateFunctions.maxString
  | "and" => some superclusterAggregateFunctions.andFn
  | "or" => some superclusterAggregateFunctions.orFn
  | _ => none

/-! ### Aggregate function registry of `src/unnamed/part_000` -/

/-- `function toNumber(input, defaultValue) { let num = new Number(input);
return isNaN(input) ? defaultValue : num; }` — `isNaN(input)` coerces `input`
with `Number` and tests for `NaN`; the boxed `new Number(input)` carries the
numeric value of `Number(input)`. -/
def part000.toNumber (input : JSVal) (defaultValue : JSNum) : JSNum :=
  if jsToNumber input = .nan then defaultValue else jsToNumber input

/-- `sum(a, b) { return toNumber(a, 0) + toNumber(b, 0); }` -/
def part000.sum (a b : JSVal) : JSVal :=
  .num (jsAdd (part000.toNumber a (.num 0)) (part000.toNumber b (.num 0)))

/-- `min(a, b) { return Math.min(toNumber(a, Infinity), toNumber(b, Infinity)); }` -/
def part000.min (a b : JSVal) : JSVal :=
  .num (jsMin (part000.toNumber a .inf) (part000.toNumber b .inf))

/-- `max(a, b) { return Math.max(toNumber(a, -Infinity), toNumber(b, -Infinity)); }` -/
def part000.max (a b : JSVal) : JSVal :=
  .num (jsMax (part000.toNumber a .negInf) (part000.toNumber b .negInf))

/-- `min_string(a, b) { return a < b ? a : b; }` -/
def part000.minString (a b : JSVal) : JSVal :=
  if jsLtVal a b then a else b

/-- `max_string(a, b) { return a > b ? a : b; }` -/
def part000.maxString (a b : JSVal) : JSVal :=
  if jsLtVal b a then a else b

/-- `and(a, b) { return a && b; }` -/
def part000.andFn (a b : JSVal) : JSVal :=
  if jsTruthyVal a then b else a

/-- `or(a, b) { return a || b; }` -/
def part000.orFn (a b : JSVal) : JSVal :=
  if jsTruthyVal a then a else b

/-- The `module.exports` object of `src/unnamed/part_000` as a property
lookup. -/
def part000.exports : String → Option (JSVal → JSVal → JSVal)
  | "sum" => some part000.sum
  | "min" => some part000.min
  | "max" => some part000.max
  | "min_string" => some part000.minString
  | "max_string" => some part000.maxString
  | "and" => some part000.andFn
  | "or" => some part000.orFn
  | _ => none

/-! ### Cluster property accumulator -/

/-- A JavaScript properties object: an association list with unique keys;
reading an absent key yields `undefined`. -/
abbrev PropMap := List (String × JSVal)

/-- Property read `m[k]`: `undefined` when the key is absent. -/
def lookupProp (m : PropMap) (k : String) : JSVal :=
  match m.find? (fun e => e.1 == k) with
  | some e => e.2
  | none => .undefined

/-- A node of the cluster tree: a raw point or an already-formed cluster,
carrying a properties object and a point count (raw points have no
`numPoints` field in supercluster; any count not greater than 1 behaves as a
raw point, exactly as `numPoints > 1` does in the source). -/
structure ClusterNode where
  properties : PropMap
  numPoints : ℕ
deriving DecidableEq

/-- An aggregate specification: each entry maps a destination property name to
`[aggType, srcProperty]`, in object-key order. -/
abbrev AggSpec := List (String × String × String)

/-- The operand read of the accumulator:
`node.properties[node.numPoints > 1 ? destProperty : srcProperty]`. -/
def readOperand (node : ClusterNode) (destProperty srcProperty : String) : JSVal :=
  lookupProp node.properties (if node.numPoints > 1 then destProperty else srcProperty)

/-- `_superclusterAccumulator(aggregates, point, neighbor)`: for each entry of
the aggregate specification, apply the registered function for its operation
name to the operands read from the two nodes and store the result under the
destination name.  An operation name absent from the registry makes the
JavaScript call `undefined(...)` throw a `TypeError`, modelled as `.error`. -/
def superclusterAccumulator : AggSpec → ClusterNode → ClusterNode → Except String PropMap
  | [], _, _ => .ok []
  | (destProperty, aggType, srcProperty) :: rest, point, neighbor =>
    match superclusterAggregateFunctions aggType with
    | none => .error "TypeError: aggregate function is not a function"
    | some f =>
      match superclusterAccumulator rest point neighbor with
      | .error e => .error e
      | .ok m =>
        .ok ((destProperty,
              f (readOperand point destProperty srcProperty)
                (readOperand neighbor destProperty srcProperty)) :: m)

/-! ### Supercluster options (`_getSuperclusterOptions`) -/

/-- The `superclusterOptions` object: the `aggregates` key, the `accumulator`
key, and the remaining (opaque, forwarded) keys. -/
structure SuperclusterOptions where
  aggregates : Option AggSpec
  accumulator : Option (ClusterNode → ClusterNode → Except String PropMap)
  rest : List (String × JSVal)

/-- `_getSuperclusterOptions`: copy the options (`util.extend({}, ...)`); when
`aggregates` is present, set `accumulator` to the accumulator bound to that
aggregate specification and delete the `aggregates` key. -/
def getSuperclusterOptions (options : SuperclusterOptions) : SuperclusterOptions :=
  match options.aggregates with
  | some aggregates =>
    { aggregates := none
      accumulator := some (superclusterAccumulator aggregates)
      rest := options.rest }
  | none => options

/-! ### GeoJSON data, indexes, and the worker-source operations -/

/-- A parsed JSON value (the result of `JSON.parse` or of the ajax
collaborator). -/
inductive JSON where
  | null : JSON
  | boolean : Bool → JSON
  | num : ℚ → JSON
  | str : String → JSON
  | arr : List JSON → JSON
  | obj : List (String × JSON) → JSON

/-- JavaScript `typeof data == 'object'`: true for objects, arrays and `null`;
false for numbers, strings and booleans. -/
def typeofIsObject : JSON → Bool
  | .null => true
  | .arr _ => true
  | .obj _ => true
  | _ => false

/-- The tile-local feature set an index returns for one address. -/
structure GeoJSONTile where
  features : List JSON

/-- A geojson-vt-like tile index: both collaborator-built index variants answer
`getTile(z, x, y)` with a tile or nothing. -/
structure GeoJSONIndex where
  getTile : ℕ → ℕ → ℕ → Option GeoJSONTile

/-- `this._geoJSONIndexes`: the mapping from source ids to indexes. -/
abbrev Registry := String → Option GeoJSONIndex

/-- The wrapper handed to the callback on a successful tile lookup (the binary
vt-pbf encoding is external; the wrapper keeps the layer name and features). -/
structure GeoJSONWrapper where
  name : String
  features : List JSON

/-- A tile address `coord`. -/
structure TileCoord where
  z : ℕ
  x : ℕ
  y : ℕ
deriving DecidableEq

/-- Parameters of a `loadVectorData` request. -/
structure TileParams where
  source : String
  coord : TileCoord
  maxZoom : ℕ
deriving DecidableEq

/-- `loadVectorData(params, callback)`: `callback(null, null)` is `.ok none`,
`callback(null, wrapper)` is `.ok (some wrapper)`, `callback(err)` would be
`.error`.  An unregistered source id answers nothing; a registered index is
queried at `Math.min(coord.z, params.maxZoom), coord.x, coord.y`. -/
def loadVectorData (indexes : Registry) (params : TileParams) :
    Except String (Option GeoJSONWrapper) :=
  match indexes params.source with
  | none => .ok none
  | some index =>
    match index.getTile (min params.coord.z params.maxZoom) params.coord.x params.coord.y with
    | none => .ok none
    | some geoJSONTile =>
      .ok (some { name := "_geojsonTileLayer", features := geoJSONTile.features })

/-- The `params.data` argument of `loadGeoJSON`: a literal string or some
non-string value (only `typeof params.data === 'string'` is inspected). -/
inductive DataParam where
  | strData : String → DataParam
  | objData : JSON → DataParam

/-- Parameters of a `loadData` request. -/
structure LoadParams where
  source : String
  url : Option String
  data : Option DataParam
  cluster : Bool
  superclusterOptions : SuperclusterOptions

/-- Truthiness of `params.url` (absent or empty string is falsy). -/
def urlTruthy (params : LoadParams) : Bool :=
  match params.url with
  | some u => u ≠ ""
  | none => false

/-- `loadGeoJSON(params, callback)`: fetch from `params.url` when truthy
(`ajax.getJSON` is external; its outcome is the `ajaxResult` parameter), else
`JSON.parse` a string `params.data` (`JSON.parse` is external; it is the
`parse` parameter, `none` meaning a thrown parse error), else the input
error. -/
def loadGeoJSON (parse : String → Option JSON) (ajaxResult : Except String JSON)
    (params : LoadParams) : Except String JSON :=
  if urlTruthy params then ajaxResult
  else
    match params.data with
    | some (.strData s) =>
      match parse s with
      | some data => .ok data
      | none => .error "Input data is not a valid GeoJSON object."
    | _ => .error "Input data is not a valid GeoJSON object."

/-- Run the accumulator on every merge event of a schedule, propagating the
first thrown error. -/
def runMerges (f : ClusterNode → ClusterNode → Except String PropMap) :
    List (ClusterNode × ClusterNode) → Except String Unit
  | [] => .ok ()
  | (a, b) :: rest =>
    match f a b with
    | .error e => .error e
    | .ok _ => runMerges f rest

/-- Modelled from the spec: the clustering collaborator (supercluster) is not
part of this repository.  Per the spec, `build(options).load(pointFeatures)`
produces an opaque cluster index and "invokes the supplied accumulator during
tree construction", "once per merge event"; an exception thrown by the
accumulator propagates out of `load`.  The merge schedule (the node pairs
merged during construction) and the resulting opaque index are inputs of the
model. -/
def clusterLoad (accumulator : Option (ClusterNode → ClusterNode → Except String PropMap))
    (mergeSchedule : List (ClusterNode × ClusterNode)) (builtIndex : GeoJSONIndex) :
    Except String GeoJSONIndex :=
  match accumulator with
  | none => .ok builtIndex
  | some f =>
    match runMerges f mergeSchedule with
    | .error e => .error e
    | .ok _ => .ok builtIndex

/-- `_indexData(data, params, callback)`: clustering requested builds via the
clustering collaborator with the transformed supercluster options (errors
thrown inside the `try` are caught and passed to the callback); otherwise the
tiling collaborator (geojson-vt, external and opaque: the `vtIndex`
parameter) builds the tiled index. -/
def indexData (mergeSchedule : List (ClusterNode × ClusterNode))
    (clusterIndex vtIndex : GeoJSONIndex) (params : LoadParams) (_data : JSON) :
    Except String GeoJSONIndex :=
  if params.cluster then
    clusterLoad (getSuperclusterOptions params.superclusterOptions).accumulator
      mergeSchedule clusterIndex
  else .ok vtIndex

/-- `loadData(params, callback)`: resolve the data via `loadGeoJSON`; reject a
non-object result; rewind polygon windings (external collaborator `rewindF`,
mutating in place); index the data; only on success install the index in the
registry under `params.source`. -/
def loadData (parse : String → Option JSON) (ajaxResult : Except String JSON)
    (rewindF : JSON → JSON) (mergeSchedule : List (ClusterNode × ClusterNode))
    (clusterIndex vtIndex : GeoJSONIndex) (params : LoadParams) (indexes : Registry) :
    Except String Unit × Registry :=
  match loadGeoJSON parse ajaxResult params with
  | .error err => (.error err, indexes)
  | .ok data =>
    if typeofIsObject data then
      match indexData mergeSchedule clusterIndex vtIndex params (rewindF data) with
      | .error err => (.error err, indexes)
      | .ok indexed =>
        (.ok (), fun s => if s = params.source then some indexed else indexes s)
    else (.error "Input data is not a valid GeoJSON object.", indexes)

/-! ### Helper lemmas about the JavaScript number algebra -/

theorem jsAdd_comm (a b : JSNum) : jsAdd a b = jsAdd b a := by
  cases a <;> cases b <;> simp [jsAdd, add_comm]

theorem jsMin_comm (a b : JSNum) : jsMin a b = jsMin b a := by
  cases a <;> cases b <;> simp [jsMin, min_comm]

theorem jsMax_comm (a b : JSNum) : jsMax a b = jsMax b a := by
  cases a <;> cases b <;> simp [jsMax, max_comm]

theorem jsMin_assoc (a b c : JSNum) : jsMin (jsMin a b) c = jsMin a (jsMin b c) := by
  cases a <;> cases b <;> cases c <;> simp [jsMin, min_assoc]

theorem jsMax_assoc (a b c : JSNum) : jsMax (jsMax a b) c = jsMax a (jsMax b c) := by
  cases a <;> cases b <;> cases c <;> simp [jsMax, max_assoc]

theorem jsMin_ne_nan (a b : JSNum) (ha : a ≠ .nan) (hb : b ≠ .nan) :
    jsMin a b ≠ .nan := by
  cases a <;> cases b <;> simp_all [jsMin]

theorem jsMax_ne_nan (a b : JSNum) (ha : a ≠ .nan) (hb : b ≠ .nan) :
    jsMax a b ≠ .nan := by
  cases a <;> cases b <;> simp_all [jsMax]

theorem jsOr_of_truthy (a d : JSNum) (h : jsTruthyNum a = true) : jsOr a d = a := by
  simp [jsOr, h]

theorem jsTruthyNum_jsOr_inf (a : JSNum) : jsTruthyNum (jsOr a .inf) = true := by
  unfold jsOr
  split
  · assumption
  · rfl

theorem jsTruthyNum_jsOr_negInf (a : JSNum) : jsTruthyNum (jsOr a .negInf) = true := by
  unfold jsOr
  split
  · assumption
  · rfl

theorem jsTruthyNum_jsMin (a b : JSNum) (ha : jsTruthyNum a = true)
    (hb : jsTruthyNum b = true) : jsTruthyNum (jsMin a b) = true := by
  cases a with
  | num q =>
    cases b with
    | num r =>
      simp [jsTruthyNum] at ha hb
      simp [jsMin, jsTruthyNum]
      rcases min_choice q r with h | h <;> rw [h] <;> assumption
    | _ => simp_all [jsMin, jsTruthyNum]
  | _ => cases b <;> simp_all [jsMin, jsTruthyNum]

theorem jsTruthyNum_jsMax (a b : JSNum) (ha : jsTruthyNum a = true)
    (hb : jsTruthyNum b = true) : jsTruthyNum (jsMax a b) = true := by
  cases a with
  | num q =>
    cases b with
    | num r =>
      simp [jsTruthyNum] at ha hb
      simp [jsMax, jsTruthyNum]
      rcases max_choice q r with h | h <;> rw [h] <;> assumption
    | _ => simp_all [jsMax, jsTruthyNum]
  | _ => cases b <;> simp_all [jsMax, jsTruthyNum]

theorem p0_toNumber_ne_nan (n : JSNum) (d : JSNum) (h : n ≠ .nan) :
    part000.toNumber (.num n) d = n := by
  simp [part000.toNumber, jsToNumber, h]

theorem p0_toNumber_num_inf_ne_nan (x : JSNum) : part000.toNumber (.num x) .inf ≠ .nan := by
  by_cases h : x = .nan <;> simp [part000.toNumber, jsToNumber, h]

theorem p0_toNumber_num_negInf_ne_nan (x : JSNum) :
    part000.toNumber (.num x) .negInf ≠ .nan := by
  by_cases h : x = .nan <;> simp [part000.toNumber, jsToNumber, h]

theorem ws_min_assoc (x y z : JSNum) :
    superclusterAggregateFunctions.min (superclusterAggregateFunctions.min (.num x) (.num y)) (.num z)
      = superclusterAggregateFunctions.min (.num x) (superclusterAggregateFunctions.min (.num y) (.num z)) := by
  simp only [superclusterAggregateFunctions.min, jsToNumber]
  rw [jsOr_of_truthy _ _ (jsTruthyNum_jsMin _ _ (jsTruthyNum_jsOr_inf x) (jsTruthyNum_jsOr_inf y)),
    jsOr_of_truthy _ _ (jsTruthyNum_jsMin _ _ (jsTruthyNum_jsOr_inf y) (jsTruthyNum_jsOr_inf z)),
    jsMin_assoc]

theorem ws_max_assoc (x y z : JSNum) :
    superclusterAggregateFunctions.max (superclusterAggregateFunctions.max (.num x) (.num y)) (.num z)
      = superclusterAggregateFunctions.max (.num x) (superclusterAggregateFunctions.max (.num y) (.num z)) := by
  simp only [superclusterAggregateFunctions.max, jsToNumber]
  rw [jsOr_of_truthy _ _ (jsTruthyNum_jsMax _ _ (jsTruthyNum_jsOr_negInf x) (jsTruthyNum_jsOr_negInf y)),
    jsOr_of_truthy _ _ (jsTruthyNum_jsMax _ _ (jsTruthyNum_jsOr_negInf y) (jsTruthyNum_jsOr_negInf z)),
    jsMax_assoc]

theorem p0_min_assoc (x y z : JSNum) :
    part000.min (part000.min (.num x) (.num y)) (.num z)
      = part000.min (.num x) (part000.min (.num y) (.num z)) := by
  simp only [part000.min]
  rw [p0_toNumber_ne_nan _ _
      (jsMin_ne_nan _ _ (p0_toNumber_num_inf_ne_nan x) (p0_toNumber_num_inf_ne_nan y)),
    p0_toNumber_ne_nan _ _
      (jsMin_ne_nan _ _ (p0_toNumber_num_inf_ne_nan y) (p0_toNumber_num_inf_ne_nan z)),
    jsMin_assoc]

theorem p0_max_assoc (x y z : JSNum) :
    part000.max (part000.max (.num x) (.num y)) (.num z)
      = part000.max (.num x) (part000.max (.num y) (.num z)) := by
  simp only [part000.max]
  rw [p0_toNumber_ne_nan _ _
      (jsMax_ne_nan _ _ (p0_toNumber_num_negInf_ne_nan x) (p0_toNumber_num_negInf_ne_nan y)),
    p0_toNumber_ne_nan _ _
      (jsMax_ne_nan _ _ (p0_toNumber_num_negInf_ne_nan y) (p0_toNumber_num_negInf_ne_nan z)),
    jsMax_assoc]

/-! ### Helper lemmas about the accumulator -/

theorem superclusterAccumulator_keys (spec : AggSpec) (point neighbor : ClusterNode)
    (m : PropMap) (hm : superclusterAccumulator spec point neighbor = .ok m) :
    m.map Prod.fst = spec.map Prod.fst := by
  induction spec generalizing m with
  | nil =>
    simp only [superclusterAccumulator, Except.ok.injEq] at hm
    subst hm
    rfl
  | cons e rest ih =>
    obtain ⟨d0, op0, s0⟩ := e
    simp only [superclusterAccumulator] at hm
    cases hf0 : superclusterAggregateFunctions op0 with
    | none => rw [hf0] at hm; simp at hm
    | some f0 =>
      rw [hf0] at hm
      cases hr : superclusterAccumulator rest point neighbor with
      | error e0 => rw [hr] at hm; simp at hm
      | ok m0 =>
        rw [hr] at hm
        simp only [Except.ok.injEq] at hm
        subst hm
        simp [ih m0 hr]

theorem superclusterAccumulator_isOk (spec : AggSpec) (point neighbor : ClusterNode)
    (h : ∀ e ∈ spec, (superclusterAggregateFunctions e.2.1).isSome = true) :
    ∃ m, superclusterAccumulator spec point neighbor = .ok m := by
  induction spec with
  | nil => exact ⟨[], rfl⟩
  | cons e rest ih =>
    obtain ⟨d0, op0, s0⟩ := e
    have h0 := h (d0, op0, s0) (List.mem_cons_self _ _)
    cases hf0 : superclusterAggregateFunctions op0 with
    | none => rw [hf0] at h0; simp at h0
    | some f0 =>
      obtain ⟨m0, hm0⟩ := ih (fun e he => h e (List.mem_cons_of_mem _ he))
      exact ⟨(d0, f0 (readOperand point d0 s0) (readOperand neighbor d0 s0)) :: m0,
        by simp [superclusterAccumulator, hf0, hm0]⟩

theorem superclusterAccumulator_isError (spec : AggSpec) (point neighbor : ClusterNode)
    (h : ∃ e ∈ spec, superclusterAggregateFunctions e.2.1 = none) :
    ∃ err, superclusterAccumulator spec point neighbor = .error err := by
  induction spec with
  | nil => simp at h
  | cons e rest ih =>
    obtain ⟨d0, op0, s0⟩ := e
    rcases h with ⟨e1, he1, hnone⟩
    rcases List.mem_cons.mp he1 with heq | hmem
    · subst heq
      exact ⟨"TypeError: aggregate function is not a function",
        by simp [superclusterAccumulator, hnone]⟩
    · cases hf0 : superclusterAggregateFunctions op0 with
      | none =>
        exact ⟨"TypeError: aggregate function is not a function",
          by simp [superclusterAccumulator, hf0]⟩
      | some f0 =>
        obtain ⟨err, herr⟩ := ih ⟨e1, hmem, hnone⟩
        exact ⟨err, by simp [superclusterAccumulator, hf0, herr]⟩

/-! ### Claim theorems -/

/-- Claim C1: for every aggregate specification entry
`destProperty -> (op, srcProperty)` and every pair of nodes, a successful
accumulator invocation stores under `destProperty` the result of applying the
registered function for `op` to the operand read from each node, where a
node's operand is `properties[srcProperty]` when `numPoints` is not greater
than 1 (a raw point) and `properties[destProperty]` when `numPoints > 1` (an
already-formed cluster). -/
theorem superclusterAccumulator_read_rule (spec : AggSpec) (point neighbor : ClusterNode)
    (dest op src : String) (f : JSVal → JSVal → JSVal) (m : PropMap)
    (hnodup : (spec.map Prod.fst).Nodup)
    (hmem : (dest, op, src) ∈ spec)
    (hf : superclusterAggregateFunctions op = some f)
    (hm : superclusterAccumulator spec point neighbor = .ok m) :
    lookupProp m dest =
      f (lookupProp point.properties (if point.numPoints > 1 then dest else src))
        (lookupProp neighbor.properties (if neighbor.numPoints > 1 then dest else src)) := by
  induction spec generalizing m with
  | nil => cases hmem
  | cons e rest ih =>
    obtain ⟨d0, op0, s0⟩ := e
    simp only [superclusterAccumulator] at hm
    cases hf0 : superclusterAggregateFunctions op0 with
    | none => rw [hf0] at hm; simp at hm
    | some f0 =>
      rw [hf0] at hm
      cases hr : superclusterAccumulator rest point neighbor with
      | error e0 => rw [hr] at hm; simp at hm
      | ok m0 =>
        rw [hr] at hm
        simp only [Except.ok.injEq] at hm
        subst hm
        rcases List.mem_cons.mp hmem with heq | hmem0
        · obtain ⟨hd, hop, hs⟩ : dest = d0 ∧ op = op0 ∧ src = s0 := by
            simpa [Prod.ext_iff] using heq
          subst hd
          subst hop
          subst hs
          have hff : f0 = f := Option.some.inj (hf0.symm.trans hf)
          subst hff
          simp [lookupProp, List.find?, readOperand]
        · have hd0 : d0 ∉ rest.map Prod.fst := (List.nodup_cons.mp hnodup).1
          have hdmem : dest ∈ rest.map Prod.fst := List.mem_map.mpr ⟨_, hmem0, rfl⟩
          have hne : (d0 == dest) = false := by
            simp only [beq_eq_false_iff_ne, ne_eq]
            intro h
            exact hd0 (h ▸ hdmem)
          rw [show lookupProp
              ((d0, f0 (readOperand point d0 s0) (readOperand neighbor d0 s0)) :: m0) dest
              = lookupProp m0 dest from by simp [lookupProp, List.find?, hne]]
          exact ih m0 (List.nodup_cons.mp hnodup).2 hmem0 hr

/-- Claim C10: the property mapping returned by one accumulator invocation has
exactly the specification's destination property names as its keys (in
specification order): every destination property is present, and no property
of either input node outside the destination names appears. -/
theorem superclusterAccumulator_result_keys (spec : AggSpec) (point neighbor : ClusterNode)
    (m : PropMap) (hm : superclusterAccumulator spec point neighbor = .ok m) :
    m.map Prod.fst = spec.map Prod.fst :=
  superclusterAccumulator_keys spec point neighbor m hm

/-- Witness for C10 at a concrete two-entry specification and a point/cluster
pair. -/
theorem superclusterAccumulator_result_keys_witness :
    ([("pointCount", superclusterAggregateFunctions.sum (JSVal.num (.num 1)) (JSVal.num (.num 4))),
      ("maxMag", superclusterAggregateFunctions.max (JSVal.num (.num 2)) (JSVal.num (.num 6)))].map
        Prod.fst : List String)
      = [("pointCount", "sum", "count"), ("maxMag", "max", "mag")].map Prod.fst :=
  superclusterAccumulator_result_keys
    [("pointCount", "sum", "count"), ("maxMag", "max", "mag")]
    ⟨[("count", JSVal.num (.num 1)), ("mag", JSVal.num (.num 2))], 1⟩
    ⟨[("pointCount", JSVal.num (.num 4)), ("maxMag", JSVal.num (.num 6))], 3⟩
    _ rfl

/-- Witness for C1: reducing a raw point (`numPoints = 1`) with an
already-formed cluster (`numPoints = 3`) reads the point's source property and
the cluster's destination property. -/
theorem superclusterAccumulator_read_rule_witness :
    lookupProp [("maxMag", superclusterAggregateFunctions.max (JSVal.num (.num 5)) (JSVal.num (.num 7)))] "maxMag"
      = superclusterAggregateFunctions.max
          (lookupProp [("mag", JSVal.num (.num 5))] (if 1 > 1 then "maxMag" else "mag"))
          (lookupProp [("maxMag", JSVal.num (.num 7)), ("mag", JSVal.num (.num 2))]
            (if 3 > 1 then "maxMag" else "mag")) :=
  superclusterAccumulator_read_rule [("maxMag", "max", "mag")]
    ⟨[("mag", JSVal.num (.num 5))], 1⟩
    ⟨[("maxMag", JSVal.num (.num 7)), ("mag", JSVal.num (.num 2))], 3⟩
    "maxMag" "max" "mag" superclusterAggregateFunctions.max _
    (by decide) (List.mem_singleton.mpr rfl) rfl rfl

/-- Counterexample for C2: in the `part_000` registry variant, `null` is not
treated like a missing value — `isNaN(null)` is false, so `null` coerces to 0
rather than to the identity element: `min(5, null)` is 0, not
`min(5, Infinity) = 5`. -/
theorem part000_min_null_counterexample :
    part000.min (.num (.num 5)) .nullV = .num (.num 0) ∧
    part000.min (.num (.num 5)) (.num .inf) = .num (.num 5) ∧
    part000.min (.num (.num 5)) .nullV ≠ part000.min (.num (.num 5)) (.num .inf) := by
  decide

/-- Claim C2 (amended): in the worker-source registry variant, `sum`, `min`
and `max` treat a non-numeric string, `null` and `undefined` identically,
substituting the operation's identity element; in the `part_000` variant this
holds for non-numeric strings and `undefined`, while `null` coerces to 0 —
which coincides with the identity for `sum` only. -/
theorem aggregate_coercion_defaults (a : JSVal) (s : String)
    (h : jsStringToNumber s = .nan) :
    (superclusterAggregateFunctions.sum a (.str s) = superclusterAggregateFunctions.sum a (.num (.num 0)) ∧
     superclusterAggregateFunctions.sum a .nullV = superclusterAggregateFunctions.sum a (.num (.num 0)) ∧
     superclusterAggregateFunctions.sum a .undefined = superclusterAggregateFunctions.sum a (.num (.num 0)) ∧
     superclusterAggregateFunctions.min a (.str s) = superclusterAggregateFunctions.min a (.num .inf) ∧
     superclusterAggregateFunctions.min a .nullV = superclusterAggregateFunctions.min a (.num .inf) ∧
     superclusterAggregateFunctions.min a .undefined = superclusterAggregateFunctions.min a (.num .inf) ∧
     superclusterAggregateFunctions.max a (.str s) = superclusterAggregateFunctions.max a (.num .negInf) ∧
     superclusterAggregateFunctions.max a .nullV = superclusterAggregateFunctions.max a (.num .negInf) ∧
     superclusterAggregateFunctions.max a .undefined = superclusterAggregateFunctions.max a (.num .negInf)) ∧
    (part000.sum a (.str s) = part000.sum a (.num (.num 0)) ∧
     part000.sum a .nullV = part000.sum a (.num (.num 0)) ∧
     part000.sum a .undefined = part000.sum a (.num (.num 0)) ∧
     part000.min a (.str s) = part000.min a (.num .inf) ∧
     part000.min a .undefined = part000.min a (.num .inf) ∧
     part000.min a .nullV = part000.min a (.num (.num 0)) ∧
     part000.max a (.str s) = part000.max a (.num .negInf) ∧
     part000.max a .undefined = part000.max a (.num .negInf) ∧
     part000.max a .nullV = part000.max a (.num (.num 0))) := by
  refine ⟨⟨?_, ?_, ?_, ?_, ?_, ?_, ?_, ?_, ?_⟩, ?_, ?_, ?_, ?_, ?_, ?_, ?_, ?_, ?_⟩ <;>
    simp [superclusterAggregateFunctions.sum, superclusterAggregateFunctions.min,
      superclusterAggregateFunctions.max, part000.sum, part000.min, part000.max,
      part000.toNumber, jsToNumber, jsOr, jsTruthyNum, h]

/-- Witness for C2 (amended) at `a = 7`, `s = "not-a-number"`. -/
theorem aggregate_coercion_defaults_witness :
    jsStringToNumber "not-a-number" = .nan ∧
    superclusterAggregateFunctions.sum (.num (.num 7)) (.str "not-a-number")
      = superclusterAggregateFunctions.sum (.num (.num 7)) (.num (.num 0)) :=
  ⟨by decide, (aggregate_coercion_defaults (.num (.num 7)) "not-a-number" (by decide)).1.1⟩

/-- Counterexample for C3: `sum` is not associative over all numeric operands
in either variant — grouping `Infinity` with `-Infinity` first yields
`NaN → 0` coercion on the next step, while the other grouping yields `NaN`. -/
theorem sum_not_associative_counterexample :
    superclusterAggregateFunctions.sum
        (superclusterAggregateFunctions.sum (.num .inf) (.num .negInf)) (.num (.num 1))
      = .num (.num 1) ∧
    superclusterAggregateFunctions.sum (.num .inf)
        (superclusterAggregateFunctions.sum (.num .negInf) (.num (.num 1)))
      = .num .nan ∧
    part000.sum (part000.sum (.num .inf) (.num .negInf)) (.num (.num 1)) = .num (.num 1) ∧
    part000.sum (.num .inf) (part000.sum (.num .negInf) (.num (.num 1))) = .num .nan := by
  refine ⟨?_, ?_, ?_, ?_⟩ <;>
    simp [superclusterAggregateFunctions.sum, part000.sum, part000.toNumber,
      jsToNumber, jsOr, jsTruthyNum, jsAdd]

/-- Claim C3 (amended): in both registry variants, `min` and `max` are
associative and `sum`, `min` and `max` are commutative on all numeric
operands; `sum` is not associative (it fails already on infinite operands,
and on finite operands IEEE rounding — outside this exact-arithmetic model —
also breaks associativity in the program). -/
theorem aggregate_assoc_comm (x y z : JSNum) :
    (superclusterAggregateFunctions.min
        (superclusterAggregateFunctions.min (.num x) (.num y)) (.num z)
      = superclusterAggregateFunctions.min (.num x)
          (superclusterAggregateFunctions.min (.num y) (.num z))) ∧
    (superclusterAggregateFunctions.max
        (superclusterAggregateFunctions.max (.num x) (.num y)) (.num z)
      = superclusterAggregateFunctions.max (.num x)
          (superclusterAggregateFunctions.max (.num y) (.num z))) ∧
    (part000.min (part000.min (.num x) (.num y)) (.num z)
      = part000.min (.num x) (part000.min (.num y) (.num z))) ∧
    (part000.max (part000.max (.num x) (.num y)) (.num z)
      = part000.max (.num x) (part000.max (.num y) (.num z))) ∧
    (superclusterAggregateFunctions.sum (.num x) (.num y)
      = superclusterAggregateFunctions.sum (.num y) (.num x)) ∧
    (superclusterAggregateFunctions.min (.num x) (.num y)
      = superclusterAggregateFunctions.min (.num y) (.num x)) ∧
    (superclusterAggregateFunctions.max (.num x) (.num y)
      = superclusterAggregateFunctions.max (.num y) (.num x)) ∧
    (part000.sum (.num x) (.num y) = part000.sum (.num y) (.num x)) ∧
    (part000.min (.num x) (.num y) = part000.min (.num y) (.num x)) ∧
    (part000.max (.num x) (.num y) = part000.max (.num y) (.num x)) := by
  refine ⟨ws_min_assoc x y z, ws_max_assoc x y z, p0_min_assoc x y z,
    p0_max_assoc x y z, ?_, ?_, ?_, ?_, ?_, ?_⟩
  · exact congrArg JSVal.num (jsAdd_comm _ _)
  · exact congrArg JSVal.num (jsMin_comm _ _)
  · exact congrArg JSVal.num (jsMax_comm _ _)
  · exact congrArg JSVal.num (jsAdd_comm _ _)
  · exact congrArg JSVal.num (jsMin_comm _ _)
  · exact congrArg JSVal.num (jsMax_comm _ _)

/-- Claim C9: the two registry variants of numeric `min` are not extensionally
equal — on the pair `(5, null)` (one numeric, one non-numeric operand) the
worker-source variant returns 5 while the `part_000` variant returns 0. -/
theorem min_variants_disagree :
    ∃ a b : JSVal, (∃ n, a = JSVal.num n) ∧ (∀ n, b ≠ JSVal.num n) ∧
      superclusterAggregateFunctions.min a b ≠ part000.min a b := by
  refine ⟨.num (.num 5), .nullV, ⟨.num 5, rfl⟩, ?_, by decide⟩
  intro n
  simp

/-- Claim C5: tile retrieval never reports absence as an error — an
unregistered source id answers `.ok none`, and a registered index returning
nothing at the clamped address also answers `.ok none`. -/
theorem loadVectorData_absence_not_error (indexes : Registry) (params : TileParams) :
    (indexes params.source = none → loadVectorData indexes params = .ok none) ∧
    ∀ index, indexes params.source = some index →
      index.getTile (min params.coord.z params.maxZoom) params.coord.x params.coord.y = none →
      loadVectorData indexes params = .ok none := by
  constructor
  · intro h
    simp [loadVectorData, h]
  · intro index h ht
    simp [loadVectorData, h, ht]

/-- Witness for C5: an empty registry and an always-empty registered index
both answer `.ok none`. -/
theorem loadVectorData_absence_not_error_witness :
    loadVectorData (fun _ => none) ⟨"quakes", ⟨3, 1, 2⟩, 14⟩ = .ok none ∧
    loadVectorData (fun _ => some ⟨fun _ _ _ => none⟩) ⟨"quakes", ⟨3, 1, 2⟩, 14⟩ = .ok none :=
  ⟨(loadVectorData_absence_not_error (fun _ => none) ⟨"quakes", ⟨3, 1, 2⟩, 14⟩).1 rfl,
   (loadVectorData_absence_not_error (fun _ => some ⟨fun _ _ _ => none⟩)
      ⟨"quakes", ⟨3, 1, 2⟩, 14⟩).2 ⟨fun _ _ _ => none⟩ rfl rfl⟩

/-- Claim C6: against a registered index, the zoom passed to the index's
`getTile` is exactly `min(coord.z, params.maxZoom)`, while `x` and `y` are
passed through unmodified. -/
theorem loadVectorData_zoom_clamp (indexes : Registry) (params : TileParams)
    (index : GeoJSONIndex) (h : indexes params.source = some index) :
    loadVectorData indexes params =
      match index.getTile (min params.coord.z params.maxZoom) params.coord.x params.coord.y with
      | none => .ok none
      | some geoJSONTile =>
        .ok (some { name := "_geojsonTileLayer", features := geoJSONTile.features }) := by
  simp only [loadVectorData, h]

/-- Witness for C6: an index that answers only at zoom 3 is hit by a request
at zoom 7 with `maxZoom` 3 (the zoom is clamped; x and y arrive unchanged). -/
theorem loadVectorData_zoom_clamp_witness :
    loadVectorData
        (fun _ => some ⟨fun z x y => if z = 3 ∧ x = 9 ∧ y = 11 then some ⟨[]⟩ else none⟩)
        ⟨"quakes", ⟨7, 9, 11⟩, 3⟩
      = .ok (some { name := "_geojsonTileLayer", features := [] }) :=
  (loadVectorData_zoom_clamp
      (fun _ => some ⟨fun z x y => if z = 3 ∧ x = 9 ∧ y = 11 then some ⟨[]⟩ else none⟩)
      ⟨"quakes", ⟨7, 9, 11⟩, 3⟩
      ⟨fun z x y => if z = 3 ∧ x = 9 ∧ y = 11 then some ⟨[]⟩ else none⟩ rfl).trans
    (by norm_num)

/-- Claim C7: when `superclusterOptions.aggregates` is present, the options
delegated to the clustering collaborator carry an accumulator bound to that
aggregate specification and no `aggregates` key; when absent, the options are
forwarded unchanged, without an accumulator being added. -/
theorem getSuperclusterOptions_aggregates (options : SuperclusterOptions) (ag : AggSpec) :
    (options.aggregates = some ag →
      getSuperclusterOptions options =
        { aggregates := none
          accumulator := some (superclusterAccumulator ag)
          rest := options.rest }) ∧
    (options.aggregates = none → getSuperclusterOptions options = options) := by
  constructor <;> intro h <;> simp [getSuperclusterOptions, h]

/-- Witness for C7 at a concrete aggregate specification (and, for the absent
case, concrete aggregate-free options). -/
theorem getSuperclusterOptions_aggregates_witness :
    getSuperclusterOptions
        ⟨some [("maxMag", "max", "mag")], none, [("radius", .num (.num 40))]⟩
      = { aggregates := none
          accumulator := some (superclusterAccumulator [("maxMag", "max", "mag")])
          rest := [("radius", .num (.num 40))] } ∧
    getSuperclusterOptions ⟨none, none, [("radius", .num (.num 40))]⟩
      = ⟨none, none, [("radius", .num (.num 40))]⟩ :=
  ⟨(getSuperclusterOptions_aggregates
      ⟨some [("maxMag", "max", "mag")], none, [("radius", .num (.num 40))]⟩
      [("maxMag", "max", "mag")]).1 rfl,
   (getSuperclusterOptions_aggregates ⟨none, none, [("radius", .num (.num 40))]⟩ []).2 rfl⟩

/-- Claim C4: a load rejected as an input error (no truthy url and missing or
non-string data, a string that fails to parse, or a resolved value that is
not an object) completes with the input error and leaves the registry exactly
as it was — no index is installed for any source. -/
theorem loadData_input_error (parse : String → Option JSON) (ajaxResult : Except String JSON)
    (rewindF : JSON → JSON) (mergeSchedule : List (ClusterNode × ClusterNode))
    (clusterIndex vtIndex : GeoJSONIndex) (params : LoadParams) (indexes : Registry)
    (h : (urlTruthy params = false ∧ ∀ s, params.data ≠ some (.strData s)) ∨
         (urlTruthy params = false ∧ ∃ s, params.data = some (.strData s) ∧ parse s = none) ∨
         (∃ j, loadGeoJSON parse ajaxResult params = .ok j ∧ typeofIsObject j = false)) :
    loadData parse ajaxResult rewindF mergeSchedule clusterIndex vtIndex params indexes
      = (.error "Input data is not a valid GeoJSON object.", indexes) := by
  rcases h with ⟨hu, hd⟩ | ⟨hu, s, hd, hp⟩ | ⟨j, hj, hobj⟩
  · cases hdp : params.data with
    | none => simp [loadData, loadGeoJSON, hu, hdp]
    | some d =>
      cases d with
      | strData s => exact absurd hdp (hd s)
      | objData j => simp [loadData, loadGeoJSON, hu, hdp]
  · simp [loadData, loadGeoJSON, hu, hd, hp]
  · simp [loadData, hj, hobj]

/-- Witness for C4: a malformed JSON string yields the input error and an
unchanged (empty) registry. -/
theorem loadData_input_error_witness :
    loadData (fun _ => none) (.error "ajax failed") id [] ⟨fun _ _ _ => none⟩
        ⟨fun _ _ _ => none⟩
        ⟨"quakes", none, some (.strData "invalid json"), false, ⟨none, none, []⟩⟩
        (fun _ => none)
      = (.error "Input data is not a valid GeoJSON object.", fun _ => none) :=
  loadData_input_error (fun _ => none) (.error "ajax failed") id [] ⟨fun _ _ _ => none⟩
    ⟨fun _ _ _ => none⟩
    ⟨"quakes", none, some (.strData "invalid json"), false, ⟨none, none, []⟩⟩
    (fun _ => none)
    (Or.inr (Or.inl ⟨rfl, "invalid json", rfl, rfl⟩))

/-- Counterexample for C8: an aggregate specification whose operation
(`"median"`) is not in the registry does not make the build fail when the
clustering collaborator performs no merge (for instance on a single point):
the load succeeds and an index is installed for the source. -/
theorem clustered_build_unknown_op_counterexample :
    superclusterAggregateFunctions "median" = none ∧
    (loadData (fun _ => some (.obj [])) (.error "ajax failed") id []
        ⟨fun _ _ _ => none⟩ ⟨fun _ _ _ => some ⟨[]⟩⟩
        ⟨"quakes", none, some (.strData "x"), true,
          ⟨some [("med", "median", "v")], none, []⟩⟩
        (fun _ => none)).1 = .ok () ∧
    ((loadData (fun _ => some (.obj [])) (.error "ajax failed") id []
        ⟨fun _ _ _ => none⟩ ⟨fun _ _ _ => some ⟨[]⟩⟩
        ⟨"quakes", none, some (.strData "x"), true,
          ⟨some [("med", "median", "v")], none, []⟩⟩
        (fun _ => none)).2 "quakes").isSome = true :=
  ⟨rfl, rfl, rfl⟩

/-- Claim C8 (amended): with an aggregate specification containing an
operation name absent from the registry, the accumulator invocation throws
instead of skipping the entry, so whenever the clustering collaborator
performs at least one merge during index construction, the whole build fails:
`loadData` completes with an error and the registry is left unchanged (no
index installed).  (When no merge occurs, the unknown operation goes
undetected — see the counterexample.) -/
theorem clustered_build_unknown_op (parse : String → Option JSON)
    (ajaxResult : Except String JSON) (rewindF : JSON → JSON) (spec : AggSpec)
    (mergeSchedule : List (ClusterNode × ClusterNode)) (clusterIndex vtIndex : GeoJSONIndex)
    (params : LoadParams) (indexes : Registry)
    (hcluster : params.cluster = true)
    (hagg : params.superclusterOptions.aggregates = some spec)
    (hbad : ∃ e ∈ spec, superclusterAggregateFunctions e.2.1 = none)
    (hmerge : mergeSchedule ≠ []) :
    (loadData parse ajaxResult rewindF mergeSchedule clusterIndex vtIndex params indexes).1.isOk
        = false ∧
    (loadData parse ajaxResult rewindF mergeSchedule clusterIndex vtIndex params indexes).2
        = indexes := by
  have hidx : ∀ d, ∃ err,
      indexData mergeSchedule clusterIndex vtIndex params d = .error err := by
    intro d
    cases mergeSchedule with
    | nil => exact absurd rfl hmerge
    | cons p rest =>
      obtain ⟨a, b⟩ := p
      obtain ⟨err, herr⟩ := superclusterAccumulator_isError spec a b hbad
      exact ⟨err, by
        simp [indexData, hcluster, getSuperclusterOptions, hagg, clusterLoad, runMerges, herr]⟩
  cases hg : loadGeoJSON parse ajaxResult params with
  | error e => simp [loadData, hg, Except.isOk, Except.toBool]
  | ok data =>
    cases hobj : typeofIsObject data with
    | false => simp [loadData, hg, hobj, Except.isOk, Except.toBool]
    | true =>
      obtain ⟨err, herr⟩ := hidx (rewindF data)
      simp [loadData, hg, hobj, herr, Except.isOk, Except.toBool]

/-- Witness for C8 (amended) with one merge event scheduled. -/
theorem clustered_build_unknown_op_witness :
    (loadData (fun _ => some (.obj [])) (.error "ajax failed") id [(⟨[], 1⟩, ⟨[], 1⟩)]
        ⟨fun _ _ _ => none⟩ ⟨fun _ _ _ => none⟩
        ⟨"quakes", none, some (.strData "x"), true,
          ⟨some [("med", "median", "v")], none, []⟩⟩
        (fun _ => none)).1.isOk = false ∧
    (loadData (fun _ => some (.obj [])) (.error "ajax failed") id [(⟨[], 1⟩, ⟨[], 1⟩)]
        ⟨fun _ _ _ => none⟩ ⟨fun _ _ _ => none⟩
        ⟨"quakes", none, some (.strData "x"), true,
          ⟨some [("med", "median", "v")], none, []⟩⟩
        (fun _ => none)).2 = (fun _ => none) :=
  clustered_build_unknown_op (fun _ => some (.obj [])) (.error "ajax failed") id
    [("med", "median", "v")] [(⟨[], 1⟩, ⟨[], 1⟩)] ⟨fun _ _ _ => none⟩ ⟨fun _ _ _ => none⟩
    ⟨"quakes", none, some (.strData "x"), true,
      ⟨some [("med", "median", "v")], none, []⟩⟩
    (fun _ => none) rfl rfl
    ⟨("med", "median", "v"), List.mem_singleton.mpr rfl, rfl⟩ (by simp)
